import Mathlib

/-!
Verification of the extraction pipeline in `scripts/scrape-crl-posts.py`.

The Python script fetches one author page, extracts blog-post records from
its HTML, normalizes their fields and writes a TypeScript data file.  This
file gives a shallow embedding of that pipeline: pure Lean functions that
mirror the Python functions (`parse_date`, `extract_tags`,
`extract_post_data`, `scrape_crl_author_page`, `main`) together with a
model of the configured urllib3 retry behaviour, and theorems about them.

Conventions of the embedding:
* Python strings are Lean `String`s; all character-level work happens on
  `String.data` (`List Char`), matching Python's code-point semantics.
* `None`-able results become `Option`; exceptions that a caller catches
  become `Option`/sum results.
* BeautifulSoup's parsed HTML is an explicit tree (`Node`); `find`,
  `find_all` and `get_text(strip=True)` are embedded with their documented
  semantics: `find` searches descendants in document (pre-)order,
  `get_text(strip=True)` concatenates each contained string stripped of
  surrounding whitespace, and a bs4 `Tag` object is always truthy
  (`Tag.__bool__` is constantly `True`), so `find(..) or find(..)` is a
  first-`non-None` choice.
-/

/-! ## Character and string helpers (Python `str` semantics) -/

/-- Whitespace characters recognised by Python's `str.strip()` (the ASCII
ones; the script only ever meets ASCII whitespace). -/
def isPySpaceChar (c : Char) : Bool :=
  c == ' ' || c == '\t' || c == '\n' || c == '\x0d' || c == '\x0b' || c == '\x0c'

/-- Python `str.strip()` on a list of characters. -/
def pyStripList (l : List Char) : List Char :=
  ((l.dropWhile isPySpaceChar).reverse.dropWhile isPySpaceChar).reverse

/-- ASCII lower-casing of one character, as Python `str.lower()` does for
the ASCII range (the only range the script's keyword tables use). -/
def lowerChar (c : Char) : Char :=
  if 65 ≤ c.toNat && c.toNat ≤ 90 then Char.ofNat (c.toNat + 32) else c

/-- Python `str.lower()`. -/
def lowerStr (s : String) : String := ⟨s.data.map lowerChar⟩

/-- `isPrefixList needle hay` : does `hay` start with `needle`?
(Python `str.startswith`.) -/
def isPrefixList : List Char → List Char → Bool
  | [], _ => true
  | _ :: _, [] => false
  | a :: as, b :: bs => a == b && isPrefixList as bs

/-- `containsSubList needle hay` : does `needle` occur as a contiguous
substring of `hay`?  (Python's `needle in hay`.) -/
def containsSubList (needle : List Char) : List Char → Bool
  | [] => isPrefixList needle []
  | c :: rest => isPrefixList needle (c :: rest) || containsSubList needle rest

/-- Python `needle in hay` on strings. -/
def strContains (hay needle : String) : Bool :=
  containsSubList needle.data hay.data

/-- Python `hay.startswith(needle)` on strings. -/
def strStartsWith (hay needle : String) : Bool :=
  isPrefixList needle.data hay.data

/-! ## Date Normalizer (`parse_date`, `DATE_FORMATS`)

`DATE_FORMATS = ["%B %d, %Y", "%b %d, %Y", "%Y-%m-%d", "%m/%d/%Y"]`;
`parse_date` strips the input, tries the formats in order with
`datetime.strptime`, and reformats the first success with
`strftime("%Y-%m-%d")`, returning `None` when every format fails.
The embedding reproduces CPython `strptime` behaviour for these four
formats: month names match case-insensitively, `%d`/`%m` accept one or
two digits, `%Y` is exactly four digits, a space in the format matches
one or more whitespace characters, the whole input must be consumed, and
the resulting calendar date must exist (day in range for the month,
year at least 1). -/

def isDigitChar (c : Char) : Bool := 48 ≤ c.toNat && c.toNat ≤ 57

def digitVal (c : Char) : Nat := c.toNat - 48

/-- One or two decimal digits, greedily, returning value and rest. -/
def parse1or2Digits : List Char → Option (Nat × List Char)
  | [] => none
  | [c] => if isDigitChar c then some (digitVal c, []) else none
  | c₁ :: c₂ :: rest =>
    if isDigitChar c₁ then
      if isDigitChar c₂ then some (10 * digitVal c₁ + digitVal c₂, rest)
      else some (digitVal c₁, c₂ :: rest)
    else none

/-- Exactly four decimal digits (`%Y`), returning value and rest. -/
def parse4Digits : List Char → Option (Nat × List Char)
  | a :: b :: c :: d :: rest =>
    if isDigitChar a && isDigitChar b && isDigitChar c && isDigitChar d then
      some (1000 * digitVal a + 100 * digitVal b + 10 * digitVal c + digitVal d, rest)
    else none
  | _ => none

/-- One or more whitespace characters (a literal blank in a `strptime`
format matches `\s+`). -/
def skipWs1 : List Char → Option (List Char)
  | [] => none
  | c :: rest =>
    if isPySpaceChar c then some (rest.dropWhile isPySpaceChar) else none

/-- A single expected literal character. -/
def expectChar (c : Char) : List Char → Option (List Char)
  | [] => none
  | d :: rest => if c == d then some rest else none

/-- Case-insensitively strip `needle` from the front of the input. -/
def stripPrefixCI : List Char → List Char → Option (List Char)
  | [], s => some s
  | _ :: _, [] => none
  | a :: as, b :: bs =>
    if lowerChar a == lowerChar b then stripPrefixCI as bs else none

def MONTHS_FULL : List (List Char × Nat) :=
  [("january".data, 1), ("february".data, 2), ("march".data, 3),
   ("april".data, 4), ("may".data, 5), ("june".data, 6), ("july".data, 7),
   ("august".data, 8), ("september".data, 9), ("october".data, 10),
   ("november".data, 11), ("december".data, 12)]

def MONTHS_ABBR : List (List Char × Nat) :=
  [("jan".data, 1), ("feb".data, 2), ("mar".data, 3), ("apr".data, 4),
   ("may".data, 5), ("jun".data, 6), ("jul".data, 7), ("aug".data, 8),
   ("sep".data, 9), ("oct".data, 10), ("nov".data, 11), ("dec".data, 12)]

/-- Match one month name (`%B`/`%b`) case-insensitively, returning its
number and the remaining input. -/
def matchMonthCI : List (List Char × Nat) → List Char → Option (Nat × List Char)
  | [], _ => none
  | (nm, idx) :: rest, s =>
    match stripPrefixCI nm s with
    | some r => some (idx, r)
    | none => matchMonthCI rest s

def isLeapYear (y : Nat) : Bool :=
  y % 4 == 0 && (y % 100 != 0 || y % 400 == 0)

def daysInMonth (y m : Nat) : Nat :=
  if m == 2 then (if isLeapYear y then 29 else 28)
  else if m == 4 || m == 6 || m == 9 || m == 11 then 30
  else 31

/-- The calendar validation performed by the `datetime` constructor. -/
def validYMD (y m d : Nat) : Bool :=
  1 ≤ y && 1 ≤ m && m ≤ 12 && 1 ≤ d && d ≤ daysInMonth y m

structure DateYMD where
  y : Nat
  m : Nat
  d : Nat
deriving DecidableEq, Repr

/-- `strptime(s, "%B %d, %Y")` (full month name, day, comma, year). -/
def parseFullMonthDate (s : List Char) : Option DateYMD :=
  (matchMonthCI MONTHS_FULL s).bind fun mr =>
  (skipWs1 mr.2).bind fun r₂ =>
  (parse1or2Digits r₂).bind fun dr =>
  (expectChar ',' dr.2).bind fun r₄ =>
  (skipWs1 r₄).bind fun r₅ =>
  (parse4Digits r₅).bind fun yr =>
  if yr.2.isEmpty && validYMD yr.1 mr.1 dr.1 then
    some ⟨yr.1, mr.1, dr.1⟩
  else none

/-- `strptime(s, "%b %d, %Y")` (abbreviated month name, day, comma, year). -/
def parseAbbrMonthDate (s : List Char) : Option DateYMD :=
  (matchMonthCI MONTHS_ABBR s).bind fun mr =>
  (skipWs1 mr.2).bind fun r₂ =>
  (parse1or2Digits r₂).bind fun dr =>
  (expectChar ',' dr.2).bind fun r₄ =>
  (skipWs1 r₄).bind fun r₅ =>
  (parse4Digits r₅).bind fun yr =>
  if yr.2.isEmpty && validYMD yr.1 mr.1 dr.1 then
    some ⟨yr.1, mr.1, dr.1⟩
  else none

/-- `strptime(s, "%Y-%m-%d")`. -/
def parseIsoDate (s : List Char) : Option DateYMD :=
  (parse4Digits s).bind fun yr =>
  (expectChar '-' yr.2).bind fun r₂ =>
  (parse1or2Digits r₂).bind fun mr =>
  (expectChar '-' mr.2).bind fun r₄ =>
  (parse1or2Digits r₄).bind fun dr =>
  if dr.2.isEmpty && validYMD yr.1 mr.1 dr.1 then
    some ⟨yr.1, mr.1, dr.1⟩
  else none

/-- `strptime(s, "%m/%d/%Y")`. -/
def parseSlashDate (s : List Char) : Option DateYMD :=
  (parse1or2Digits s).bind fun mr =>
  (expectChar '/' mr.2).bind fun r₂ =>
  (parse1or2Digits r₂).bind fun dr =>
  (expectChar '/' dr.2).bind fun r₄ =>
  (parse4Digits r₄).bind fun yr =>
  if yr.2.isEmpty && validYMD yr.1 mr.1 dr.1 then
    some ⟨yr.1, mr.1, dr.1⟩
  else none

/-- The ordered format list `DATE_FORMATS`. -/
def DATE_FORMATS : List (List Char → Option DateYMD) :=
  [parseFullMonthDate, parseAbbrMonthDate, parseIsoDate, parseSlashDate]

/-- The `for fmt in DATE_FORMATS` loop body: first successful parse. -/
def tryDateFormats : List (List Char → Option DateYMD) → List Char → Option DateYMD
  | [], _ => none
  | f :: fs, s =>
    match f s with
    | some d => some d
    | none => tryDateFormats fs s

def digitChar (n : Nat) : Char := Char.ofNat (48 + n)

/-- Two-digit zero-padded rendering (`%m`, `%d`). -/
def pad2 (n : Nat) : List Char := [digitChar (n / 10 % 10), digitChar (n % 10)]

/-- Four-digit zero-padded rendering (`%Y`). -/
def pad4 (n : Nat) : List Char :=
  [digitChar (n / 1000 % 10), digitChar (n / 100 % 10),
   digitChar (n / 10 % 10), digitChar (n % 10)]

/-- `strftime("%Y-%m-%d")`. -/
def formatYMD (dt : DateYMD) : String :=
  ⟨pad4 dt.y ++ '-' :: (pad2 dt.m ++ '-' :: pad2 dt.d)⟩

/-- `parse_date`: strip, try each format in order, reformat the first
success as `YYYY-MM-DD`; `none` when every format fails. -/
def parse_date (s : String) : Option String :=
  (tryDateFormats DATE_FORMATS (pyStripList s.data)).map formatYMD

/-! ## Tag Classifier (`extract_tags`, `DEFAULT_TAGS`)

`extract_tags` builds `set(DEFAULT_TAGS)`, lower-cases
`f"{title} {excerpt}"`, adds each tag of the fixed keyword table whose
keyword list has a member occurring as a substring of that text, and
returns `sorted(list(tags))`.  The Python `set` is embedded as a
duplicate-free accumulation list (the final `sorted` makes the set's
internal order irrelevant), and `sorted` as insertion sort by `≤` on
strings (lexicographic by code point, as in Python). -/

def DEFAULT_TAGS : List String := ["databases"]

/-- The fixed `tag_keywords` table, in source order. -/
def tag_keywords : List (String × List String) :=
  [("distributed-systems", ["distributed", "multi-region", "geo-distributed", "replication"]),
   ("reliability", ["reliability", "resilience", "failover", "uptime"]),
   ("disaster-recovery", ["disaster recovery", "backup", "restore", "recovery"]),
   ("product-management", ["product", "pricing", "packaging", "strategy"]),
   ("pricing", ["pricing", "cost", "billing"]),
   ("cloud", ["cloud", "aws", "gcp", "azure"]),
   ("security", ["security", "authentication", "encryption"]),
   ("performance", ["performance", "optimization", "latency"]),
   ("migration", ["migration", "migrate", "migrating"]),
   ("architecture", ["architecture", "design", "pattern"])]

/-- `tags.add(t)` on the set-as-list representation. -/
def insertNew (acc : List String) (t : String) : List String :=
  if t ∈ acc then acc else acc ++ [t]

/-- `extract_tags` (the unused BeautifulSoup `card` parameter of the
Python signature is dropped; the body never touches it). -/
def extract_tags (title excerpt : String) : List String :=
  let combined_text := lowerStr (title ++ " " ++ excerpt)
  let tags := tag_keywords.foldl
    (fun acc p =>
      if p.2.any (fun kw => strContains combined_text kw) then insertNew acc p.1
      else acc)
    DEFAULT_TAGS
  List.insertionSort (· ≤ ·) tags

/-! ## HTML model and BeautifulSoup operations

A parsed HTML fragment is a tree.  `find(name, ...)` returns the first
descendant (document / pre-order) satisfying the criteria, `find_all`
returns all of them, and `get_text(strip=True)` concatenates every
contained string stripped of surrounding whitespace.  bs4 matches a
regex given as `class_` with `re.search` against each whitespace-token
of the tag's `class` attribute; a tag without a `class` attribute never
matches.  A bs4 `Tag` is always truthy, so Python's `find(..) or
find(..)` chains pick the first non-`None` result, and `if not elem`
tests for `None`. -/

inductive Node where
  | elem (tag : String) (attrs : List (String × String)) (children : List Node)
  | text (s : String)

def Node.children : Node → List Node
  | .elem _ _ cs => cs
  | .text _ => []

/-- `tag.attrs[key]` as an `Option` (first binding wins). -/
def attrLookup (n : Node) (key : String) : Option String :=
  match n with
  | .elem _ attrs _ => (attrs.find? (fun p => p.1 == key)).map Prod.snd
  | .text _ => none

/-- `find(name=nm)`-style name criterion. -/
def isNamed (nm : String) : Node → Bool
  | .elem t _ _ => t == nm
  | .text _ => false

mutual
/-- First match among the strict descendants of one node, pre-order. -/
def findInNode (p : Node → Bool) : Node → Option Node
  | .text _ => none
  | .elem _ _ cs => findInList p cs
/-- First match in a forest: each root, then its subtree, then the rest. -/
def findInList (p : Node → Bool) : List Node → Option Node
  | [] => none
  | n :: rest =>
    if p n then some n
    else
      match findInNode p n with
      | some r => some r
      | none => findInList p rest
end

mutual
/-- All matches among the strict descendants of one node, pre-order. -/
def findAllInNode (p : Node → Bool) : Node → List Node
  | .text _ => []
  | .elem _ _ cs => findAllInList p cs
/-- All matches in a forest, document order, nested matches included. -/
def findAllInList (p : Node → Bool) : List Node → List Node
  | [] => []
  | n :: rest => (if p n then [n] else []) ++ findAllInNode p n ++ findAllInList p rest
end

mutual
/-- The contained strings of a node's subtree, in document order. -/
def nodeStrings : Node → List String
  | .text s => [s]
  | .elem _ _ cs => listStrings cs
def listStrings : List Node → List String
  | [] => []
  | n :: rest => nodeStrings n ++ listStrings rest
end

/-- `get_text(strip=True)`: concatenation of each contained string with
its surrounding whitespace stripped. -/
def getTextStrip (n : Node) : String :=
  ⟨(nodeStrings n).foldr (fun s acc => pyStripList s.data ++ acc) []⟩

/-- `card.find(p)` searches the descendants of `card`. -/
def findIn (card : Node) (p : Node → Bool) : Option Node :=
  findInList p card.children

/-- Python `str.split()`: split on runs of whitespace, no empty pieces. -/
def splitWsAux : List Char → List Char → List String
  | [], acc => if acc.isEmpty then [] else [⟨acc.reverse⟩]
  | c :: rest, acc =>
    if isPySpaceChar c then
      if acc.isEmpty then splitWsAux rest []
      else ⟨acc.reverse⟩ :: splitWsAux rest []
    else splitWsAux rest (c :: acc)

def splitWs (s : String) : List String := splitWsAux s.data []

/-- `class_=re.compile(alt₁|alt₂|…)`: some whitespace-token of the
`class` attribute contains one of the alternatives as a substring. -/
def classHasSub (needles : List String) (n : Node) : Bool :=
  match attrLookup n "class" with
  | none => false
  | some c => (splitWs c).any (fun tok => needles.any (fun nd => strContains tok nd))

/-! ## Post records (`BlogPost`) and the Record Extractor -/

def SITE_ORIGIN : String := "https://www.cockroachlabs.com"

def EXCERPT_MAX_LENGTH : Nat := 200

structure BlogPost where
  title : String
  url : String
  date : Option String
  image : Option String
  excerpt : String
  tags : List String
deriving DecidableEq, Repr

/-- `BlogPost.__init__`: truncates the excerpt
(`excerpt[:EXCERPT_MAX_LENGTH] if excerpt else ""`) and defaults the
tags (`tags or list(DEFAULT_TAGS)`). -/
def BlogPost.make (title url : String) (date image : Option String)
    (excerpt : String) (tags : List String) : BlogPost :=
  { title, url, date, image,
    excerpt := if excerpt ≠ "" then ⟨excerpt.data.take EXCERPT_MAX_LENGTH⟩ else "",
    tags := if tags ≠ [] then tags else DEFAULT_TAGS }

/-- `if not url.startswith("http"): url = f"https://www.cockroachlabs.com{url}"`. -/
def resolveUrl (u : String) : String :=
  if strStartsWith u "http" then u else SITE_ORIGIN ++ u

/-- `if image_url and not image_url.startswith("http"): ...` — same
rewrite, except the empty string is kept as is. -/
def resolveImageUrl (u : String) : String :=
  if u ≠ "" && !strStartsWith u "http" then SITE_ORIGIN ++ u else u

/-- The title element: `card.find("h2") or card.find("h3") or card.find("a")`. -/
def titleElem (card : Node) : Option Node :=
  (findIn card (isNamed "h2")).orElse fun _ =>
  (findIn card (isNamed "h3")).orElse fun _ =>
  findIn card (isNamed "a")

/-- The link element: `card.find("a", href=True)`. -/
def linkElem (card : Node) : Option Node :=
  findIn card (fun n => isNamed "a" n && (attrLookup n "href").isSome)

/-- The excerpt element:
`card.find("p") or card.find("div", class_=re.compile("excerpt|description|summary"))`. -/
def excerptElem (card : Node) : Option Node :=
  (findIn card (isNamed "p")).orElse fun _ =>
  findIn card (fun n => isNamed "div" n && classHasSub ["excerpt", "description", "summary"] n)

/-- The date element:
`card.find("time") or card.find("span", class_=re.compile("date"))`. -/
def dateElem (card : Node) : Option Node :=
  (findIn card (isNamed "time")).orElse fun _ =>
  findIn card (fun n => isNamed "span" n && classHasSub ["date"] n)

/-- `extract_post_data(card)`: defensive field extraction; `none` when
the title element or the `href`-carrying link is missing.  (The Python
`try/except` wrapper has nothing to catch here: every embedded
operation is total.) -/
def extract_post_data (card : Node) : Option BlogPost :=
  match titleElem card with
  | none => none
  | some te =>
    let title := getTextStrip te
    match linkElem card with
    | none => none
    | some le =>
      let url := resolveUrl ((attrLookup le "href").getD "")
      let image : Option String :=
        match findIn card (isNamed "img") with
        | none => none
        | some ie =>
          match attrLookup ie "src" with
          | none => none
          | some src => some (resolveImageUrl src)
      let excerpt :=
        match excerptElem card with
        | none => ""
        | some ee => getTextStrip ee
      let date_str : Option String :=
        match dateElem card with
        | none => none
        | some de => some (getTextStrip de)
      let published_date : Option String :=
        match date_str with
        | none => none
        | some ds => if ds ≠ "" then parse_date ds else none
      let tags := extract_tags title excerpt
      some (BlogPost.make title url published_date image excerpt tags)

/-! ## Page Scraper (`scrape_crl_author_page`) and `main` -/

/-- The candidate selection:
`soup.find_all("article") or soup.find_all("div", class_=re.compile("post|article|card"))`. -/
def post_cards (doc : List Node) : List Node :=
  let arts := findAllInList (isNamed "article") doc
  if arts.isEmpty then
    findAllInList (fun n => isNamed "div" n && classHasSub ["post", "article", "card"] n) doc
  else arts

/-- The extraction loop of `scrape_crl_author_page` over the fetched
document (the fetch itself is modelled in `main_run`). -/
def scrape_crl_author_page (doc : List Node) : List BlogPost :=
  (post_cards doc).foldl
    (fun posts card =>
      match extract_post_data card with
      | some p => posts ++ [p]
      | none => posts)
    []

/-- The environment `main` runs against: what the single HTTP fetch
produces (a parsed document, or a raised request exception), and
whether writing the output file succeeds. -/
structure World where
  fetchResult : Except String (List Node)
  writeOk : Bool

/-- `main()`: returns the process exit code.  A fetch exception, zero
extracted posts, and a write exception all yield 1; otherwise the file
is written and 0 is returned. -/
def main_run (w : World) : Nat :=
  match w.fetchResult with
  | .error _ => 1
  | .ok doc =>
    let posts := scrape_crl_author_page doc
    if posts = [] then 1
    else if w.writeOk then 0 else 1

/-! ## HTTP retry model (`create_session_with_retries`)

The session mounts a urllib3 `Retry(total=MAX_RETRIES,
backoff_factor=RETRY_BACKOFF_FACTOR, status_forcelist=[500, 502, 503,
504], allowed_methods=["GET", "HEAD"])`.  urllib3's `total` counts
*retries*: each response whose status is in the forcelist (for an
allowed method) consumes one retry, and when a further retryable
response arrives with no retries left, `MaxRetryError` is raised — so
`total = 3` allows up to 4 issued requests.  Any response whose status
is not in the forcelist (or any request with a non-allowed method) is
returned immediately after a single attempt.  The backoff before the
k-th consecutive retry is `backoff_factor * 2^(k-1)` seconds (0 for the
first retry). -/

def MAX_RETRIES : Nat := 3

def RETRY_BACKOFF_FACTOR : Nat := 1

structure RetryConfig where
  total : Nat
  backoff_factor : Nat
  status_forcelist : List Nat
  allowed_methods : List String
deriving DecidableEq, Repr

/-- The retry strategy built by `create_session_with_retries`. -/
def retry_strategy : RetryConfig :=
  { total := MAX_RETRIES,
    backoff_factor := RETRY_BACKOFF_FACTOR,
    status_forcelist := [500, 502, 503, 504],
    allowed_methods := ["GET", "HEAD"] }

inductive FetchOutcome where
  | response (status : Nat)
  | retriesExhausted
deriving DecidableEq, Repr

/-- A response is retried iff the method is allowed and the status is in
the forcelist. -/
def isRetryable (cfg : RetryConfig) (method : String) (status : Nat) : Bool :=
  cfg.allowed_methods.contains method && cfg.status_forcelist.contains status

/-- The urllib3 request/retry loop.  `statuses i` is the status the
server answers to the `i`-th issued request; the result pairs the final
outcome with the number of requests issued. -/
def retryLoop (cfg : RetryConfig) (method : String) (statuses : Nat → Nat) :
    Nat → Nat → FetchOutcome × Nat
  | retriesLeft, attemptIdx =>
    let s := statuses attemptIdx
    if isRetryable cfg method s then
      match retriesLeft with
      | 0 => (.retriesExhausted, attemptIdx + 1)
      | r + 1 => retryLoop cfg method statuses r (attemptIdx + 1)
    else (.response s, attemptIdx + 1)

/-- One `session.get`-style call under the configured retry strategy. -/
def session_fetch (cfg : RetryConfig) (method : String) (statuses : Nat → Nat) :
    FetchOutcome × Nat :=
  retryLoop cfg method statuses cfg.total 0

/-- urllib3 `Retry.get_backoff_time` as configured: sleep before the
k-th consecutive retry. -/
def get_backoff_time (cfg : RetryConfig) (consecutiveErrors : Nat) : Nat :=
  if consecutiveErrors ≤ 1 then 0 else cfg.backoff_factor * 2 ^ (consecutiveErrors - 1)

/-! ## Concrete fragments and records used by the theorems -/

/-- A well-formed candidate fragment. -/
def cardBasic : Node :=
  .elem "div" [("class", "post-card")]
    [.elem "h2" [] [.text "  Big News  "],
     .elem "a" [("href", "/blog/big-news")] [.text "Read more"],
     .elem "img" [("src", "/img/x.png")] [],
     .elem "p" [] [.text "A story about cloud pricing."],
     .elem "time" [] [.text "January 15, 2024"]]

/-- A fragment whose title element exists but has empty stripped text. -/
def cardEmptyTitle : Node :=
  .elem "div" []
    [.elem "h2" [] [.text "  "],
     .elem "a" [("href", "/x")] [.text "go"]]

/-- A fragment with relative post and image URLs. -/
def cardRel : Node :=
  .elem "div" []
    [.elem "h2" [] [.text "T"],
     .elem "a" [("href", "/blog/p")] [.text "x"],
     .elem "img" [("src", "/img/x.png")] []]

/-- A fragment with absolute post and image URLs. -/
def cardAbs : Node :=
  .elem "div" []
    [.elem "h2" [] [.text "T"],
     .elem "a" [("href", "https://example.com/p")] [.text "x"],
     .elem "img" [("src", "https://cdn.example.com/i.png")] []]

/-- A fragment with a protocol-relative image URL and a non-URL `href`
that happens to start with "http". -/
def cardProtoRel : Node :=
  .elem "div" []
    [.elem "h2" [] [.text "T"],
     .elem "a" [("href", "httpfoo")] [.text "x"],
     .elem "img" [("src", "//cdn.example.com/x.png")] []]

/-- A fragment whose image element carries an empty `src`. -/
def cardEmptySrc : Node :=
  .elem "div" []
    [.elem "h2" [] [.text "T"],
     .elem "a" [("href", "/p")] [.text "x"],
     .elem "img" [("src", "")] []]

/-- 250 characters of excerpt text. -/
def longText : String := ⟨List.replicate 250 'a'⟩

def pLong : Node := .elem "p" [] [.text longText]

/-- A fragment whose excerpt exceeds `EXCERPT_MAX_LENGTH`. -/
def cardLong : Node :=
  .elem "div" []
    [.elem "h2" [] [.text "T"],
     .elem "a" [("href", "/x")] [.text "l"],
     pLong]

/-- A fragment with no excerpt element at all. -/
def cardNoExcerpt : Node :=
  .elem "div" []
    [.elem "h3" [] [.text "T2"],
     .elem "a" [("href", "/y")] [.text "m"]]

/-- A document containing a semantic `article` element (tier one). -/
def docArticles : List Node :=
  [.elem "section" [] [.elem "article" [] [.elem "h2" [] [.text "A"]]],
   .elem "div" [("class", "post-card")] [.elem "h2" [] [.text "B"]]]

/-- A document with no `article`, only class-hinted `div`s (tier two). -/
def docDivs : List Node :=
  [.elem "div" [("class", "blog-card")] [.elem "h2" [] [.text "B"]],
   .elem "span" [("class", "card")] [],
   .elem "div" [] [.text "plain"]]


/-- The record extracted from `cardRel`. -/
def rRel : BlogPost :=
  { title := "T", url := "https://www.cockroachlabs.com/blog/p", date := none,
    image := some "https://www.cockroachlabs.com/img/x.png", excerpt := "",
    tags := ["databases"] }

/-- The record extracted from `cardAbs`. -/
def rAbs : BlogPost :=
  { title := "T", url := "https://example.com/p", date := none,
    image := some "https://cdn.example.com/i.png", excerpt := "",
    tags := ["databases"] }

/-- The record extracted from `cardNoExcerpt`. -/
def rNoExcerpt : BlogPost :=
  { title := "T2", url := "https://www.cockroachlabs.com/y", date := none,
    image := none, excerpt := "", tags := ["databases"] }

/-- The record extracted from `cardLong`. -/
def rLong : BlogPost :=
  { title := "T", url := "https://www.cockroachlabs.com/x", date := none,
    image := none, excerpt := ⟨List.replicate 200 'a'⟩, tags := ["databases"] }

/-- The record extracted from `cardEmptySrc`. -/
def rEmptySrc : BlogPost :=
  { title := "T", url := "https://www.cockroachlabs.com/p", date := none,
    image := some "", excerpt := "", tags := ["databases"] }


/-- The record extracted from `cardProtoRel`. -/
def rProtoRel : BlogPost :=
  { title := "T", url := "httpfoo", date := none,
    image := some "https://www.cockroachlabs.com//cdn.example.com/x.png",
    excerpt := "", tags := ["databases"] }

/-! ## Theorems -/

/-- C2: for input text matching one of the four supported date formats
(full month, abbreviated month, ISO, slash-separated, tried in that
fixed order), `parse_date` returns the date reformatted as `YYYY-MM-DD`
using the first matching pattern; in particular the four documented
example inputs yield the documented outputs. -/
theorem parse_date_first_matching_format :
    parse_date "January 15, 2024" = some "2024-01-15" ∧
    parse_date "Jan 15, 2024" = some "2024-01-15" ∧
    parse_date "2024-01-15" = some "2024-01-15" ∧
    parse_date "01/02/2024" = some "2024-01-02" ∧
    (∀ s d, parseFullMonthDate (pyStripList s.data) = some d →
      parse_date s = some (formatYMD d)) ∧
    (∀ s d, parseFullMonthDate (pyStripList s.data) = none →
      parseAbbrMonthDate (pyStripList s.data) = some d →
      parse_date s = some (formatYMD d)) ∧
    (∀ s d, parseFullMonthDate (pyStripList s.data) = none →
      parseAbbrMonthDate (pyStripList s.data) = none →
      parseIsoDate (pyStripList s.data) = some d →
      parse_date s = some (formatYMD d)) ∧
    (∀ s d, parseFullMonthDate (pyStripList s.data) = none →
      parseAbbrMonthDate (pyStripList s.data) = none →
      parseIsoDate (pyStripList s.data) = none →
      parseSlashDate (pyStripList s.data) = some d →
      parse_date s = some (formatYMD d)) := by
  refine ⟨by decide, by decide, by decide, by decide, ?_, ?_, ?_, ?_⟩
  · intro s d h₁
    simp [parse_date, DATE_FORMATS, tryDateFormats, h₁]
  · intro s d h₁ h₂
    simp [parse_date, DATE_FORMATS, tryDateFormats, h₁, h₂]
  · intro s d h₁ h₂ h₃
    simp [parse_date, DATE_FORMATS, tryDateFormats, h₁, h₂, h₃]
  · intro s d h₁ h₂ h₃ h₄
    simp [parse_date, DATE_FORMATS, tryDateFormats, h₁, h₂, h₃, h₄]

theorem parse_date_first_matching_format_witness :
    parse_date "March 5, 2021" = some (formatYMD ⟨2021, 3, 5⟩) ∧
    parse_date "3/4/2021" = some (formatYMD ⟨2021, 3, 4⟩) :=
  ⟨parse_date_first_matching_format.2.2.2.2.1 "March 5, 2021" ⟨2021, 3, 5⟩ (by decide),
   parse_date_first_matching_format.2.2.2.2.2.2.2 "3/4/2021" ⟨2021, 3, 4⟩
     (by decide) (by decide) (by decide) (by decide)⟩

/-- C8: for an input matching none of the supported date formats (such
as "yesterday"), `parse_date` returns `none`; being a total function it
cannot raise. -/
theorem parse_date_unparseable_none :
    parse_date "yesterday" = none ∧
    (∀ s, parseFullMonthDate (pyStripList s.data) = none →
      parseAbbrMonthDate (pyStripList s.data) = none →
      parseIsoDate (pyStripList s.data) = none →
      parseSlashDate (pyStripList s.data) = none →
      parse_date s = none) := by
  refine ⟨by decide, ?_⟩
  intro s h₁ h₂ h₃ h₄
  simp [parse_date, DATE_FORMATS, tryDateFormats, h₁, h₂, h₃, h₄]

theorem parse_date_unparseable_none_witness :
    parse_date "yesterday" = none :=
  parse_date_unparseable_none.2 "yesterday" (by decide) (by decide) (by decide) (by decide)

theorem insertNew_mem_of_mem {acc : List String} (t : String) {x : String}
    (h : x ∈ acc) : x ∈ insertNew acc t := by
  unfold insertNew
  split
  · exact h
  · exact List.mem_append_left _ h

theorem insertNew_nodup {acc : List String} (t : String) (h : acc.Nodup) :
    (insertNew acc t).Nodup := by
  unfold insertNew
  split
  · exact h
  · rename_i ht
    simp [List.nodup_append, h, ht]

theorem foldl_insertNew_mem (c : String × List String → Bool) (x : String) :
    ∀ (l : List (String × List String)) (acc : List String), x ∈ acc →
      x ∈ l.foldl (fun acc p => if c p then insertNew acc p.1 else acc) acc := by
  intro l
  induction l with
  | nil => intro acc h; simpa using h
  | cons p rest ih =>
    intro acc h
    by_cases hc : c p = true
    · simpa [hc] using ih _ (insertNew_mem_of_mem p.1 h)
    · simpa [hc] using ih _ h

theorem foldl_insertNew_nodup (c : String × List String → Bool) :
    ∀ (l : List (String × List String)) (acc : List String), acc.Nodup →
      (l.foldl (fun acc p => if c p then insertNew acc p.1 else acc) acc).Nodup := by
  intro l
  induction l with
  | nil => intro acc h; simpa using h
  | cons p rest ih =>
    intro acc h
    by_cases hc : c p = true
    · simpa [hc] using ih _ (insertNew_nodup p.1 h)
    · simpa [hc] using ih _ h

/-- C3: for every title and excerpt, the classifier's output contains
the default label "databases", has no duplicates, and is sorted in
ascending order; on two empty inputs it is exactly the default label
set. -/
theorem extract_tags_sorted_nodup_default :
    (∀ title excerpt, "databases" ∈ extract_tags title excerpt ∧
      (extract_tags title excerpt).Nodup ∧
      List.Sorted (· ≤ ·) (extract_tags title excerpt)) ∧
    extract_tags "" "" = ["databases"] := by
  refine ⟨?_, by decide⟩
  intro title excerpt
  simp only [extract_tags]
  refine ⟨?_, ?_, ?_⟩
  · rw [List.mem_insertionSort]
    exact foldl_insertNew_mem _ _ _ _ (by simp [DEFAULT_TAGS])
  · exact ((List.perm_insertionSort _ _).nodup_iff).mpr
      (foldl_insertNew_nodup _ _ _ (by simp [DEFAULT_TAGS]))
  · exact List.sorted_insertionSort _ _

/-- C7: the process exits with code 0 iff the fetch succeeded, at least
one record was extracted and the output file was written; in every
other case (fetch failure, zero records, write failure) it exits with
code 1, and no other exit code is possible. -/
theorem main_exit_codes :
    ∀ w : World,
      (main_run w = 0 ∨ main_run w = 1) ∧
      (main_run w = 0 ↔ ∃ doc, w.fetchResult = .ok doc ∧
        scrape_crl_author_page doc ≠ [] ∧ w.writeOk = true) := by
  intro w
  obtain ⟨fr, wok⟩ := w
  cases fr with
  | error e => simp [main_run]
  | ok doc =>
    by_cases hp : scrape_crl_author_page doc = []
    · simp [main_run, hp]
    · cases wok <;> simp [main_run, hp]

theorem main_exit_codes_witness :
    main_run ⟨.ok [cardBasic], true⟩ = 0 :=
  (main_exit_codes _).2.mpr ⟨[cardBasic], rfl, by decide, rfl⟩

theorem retryLoop_requests_le (cfg : RetryConfig) (method : String) (statuses : Nat → Nat) :
    ∀ (r i : Nat), (retryLoop cfg method statuses r i).2 ≤ i + r + 1 := by
  intro r
  induction r with
  | zero =>
    intro i
    by_cases h : isRetryable cfg method (statuses i) = true <;>
      simp [retryLoop, h]
  | succ n ih =>
    intro i
    by_cases h : isRetryable cfg method (statuses i) = true
    · have hle := ih (i + 1)
      simp only [retryLoop, h, if_true]
      omega
    · simp [retryLoop, h]

/-- C9 counterexample: with the configured strategy (`total = 3`
retries) a server that keeps answering 500 receives 4 requests, not at
most 3: urllib3's `total` counts retries after the initial attempt. -/
theorem retry_attempt_count_counterexample :
    session_fetch retry_strategy "GET" (fun _ => 500) = (.retriesExhausted, 4) ∧
    ¬ (4 ≤ 3) := by
  exact ⟨by decide, by omega⟩

/-- C9 (amended): the session retries with exponential backoff (base
factor 1 s), up to 3 retries after the initial request — hence at most
4 issued requests — and a retry happens only for response statuses in
{500, 502, 503, 504} and only for the allowed idempotent methods GET
and HEAD; any other response is returned after a single request
(surfaced as an HTTP error by `raise_for_status` when it is an error
status), and exhaustion surfaces as a fetch error. -/
theorem retry_config_and_bounds :
    retry_strategy.total = 3 ∧
    retry_strategy.backoff_factor = 1 ∧
    retry_strategy.status_forcelist = [500, 502, 503, 504] ∧
    retry_strategy.allowed_methods = ["GET", "HEAD"] ∧
    (∀ method statuses, (session_fetch retry_strategy method statuses).2 ≤ 4) ∧
    (∀ method statuses, isRetryable retry_strategy method (statuses 0) = false →
      session_fetch retry_strategy method statuses = (.response (statuses 0), 1)) ∧
    (∀ method statuses,
      (∀ i, i ≤ 3 → isRetryable retry_strategy method (statuses i) = true) →
      session_fetch retry_strategy method statuses = (.retriesExhausted, 4)) ∧
    (∀ method status, isRetryable retry_strategy method status = true ↔
      ((method = "GET" ∨ method = "HEAD") ∧
        (status = 500 ∨ status = 502 ∨ status = 503 ∨ status = 504))) := by
  refine ⟨rfl, rfl, rfl, rfl, ?_, ?_, ?_, ?_⟩
  · intro method statuses
    simpa [session_fetch, retry_strategy, MAX_RETRIES] using
      retryLoop_requests_le retry_strategy method statuses 3 0
  · intro method statuses h
    show retryLoop retry_strategy method statuses 3 0 = _
    simp [retryLoop, h]
  · intro method statuses h
    have h0 := h 0 (by omega)
    have h1 := h 1 (by omega)
    have h2 := h 2 (by omega)
    have h3 := h 3 (by omega)
    show retryLoop retry_strategy method statuses 3 0 = _
    simp [retryLoop, h0, h1, h2, h3]
  · intro method status
    simp [isRetryable, retry_strategy]

theorem retry_config_and_bounds_witness :
    session_fetch retry_strategy "GET" (fun _ => 404) = (.response 404, 1) ∧
    session_fetch retry_strategy "GET" (fun _ => 503) = (.retriesExhausted, 4) :=
  ⟨retry_config_and_bounds.2.2.2.2.2.1 "GET" (fun _ => 404) (by decide),
   retry_config_and_bounds.2.2.2.2.2.2.1 "GET" (fun _ => 503) (fun _ _ => rfl)⟩

theorem extract_fields_characterization :
    ∀ card te le, titleElem card = some te → linkElem card = some le →
      extract_post_data card = some (BlogPost.make (getTextStrip te)
        (resolveUrl ((attrLookup le "href").getD ""))
        (match (match dateElem card with
                | none => none
                | some de => some (getTextStrip de)) with
         | none => none
         | some ds => if ds ≠ "" then parse_date ds else none)
        (match findIn card (isNamed "img") with
         | none => none
         | some ie =>
           match attrLookup ie "src" with
           | none => none
           | some src => some (resolveImageUrl src))
        (match excerptElem card with | none => "" | some ee => getTextStrip ee)
        (extract_tags (getTextStrip te)
          (match excerptElem card with | none => "" | some ee => getTextStrip ee))) := by
  intro card te le ht hl
  simp [extract_post_data, ht, hl]

theorem startsWith_slash_facts :
    ∀ u : String, strStartsWith u "/" = true →
      strStartsWith u "http" = false ∧ u ≠ "" := by
  intro u h
  constructor
  · obtain ⟨l⟩ := u
    cases l with
    | nil => simp [strStartsWith, isPrefixList] at h
    | cons c cs =>
      simp only [strStartsWith, isPrefixList, Bool.and_true, beq_iff_eq] at h
      subst h
      rfl
  · intro hu
    subst hu
    exact absurd h (by decide)

/-- C1 (amended): the Record Extractor returns absent iff no title
element (first `h2`, else first `h3`, else first `a`) is found or no
hyperlink carrying an `href` attribute is found; when both are present
it returns a record whose title is the title element's stripped text —
which may be empty, since an empty title does not cause a skip. -/
theorem extract_absent_iff_title_or_link_missing :
    ∀ card : Node,
      (titleElem card = none → extract_post_data card = none) ∧
      (linkElem card = none → extract_post_data card = none) ∧
      (∀ te le, titleElem card = some te → linkElem card = some le →
        ∃ r, extract_post_data card = some r ∧ r.title = getTextStrip te) := by
  intro card
  refine ⟨?_, ?_, ?_⟩
  · intro h
    simp [extract_post_data, h]
  · intro h
    cases ht : titleElem card with
    | none => simp [extract_post_data, ht]
    | some te => simp [extract_post_data, ht, h]
  · intro te le ht hl
    exact ⟨_, extract_fields_characterization card te le ht hl, by simp [BlogPost.make]⟩

theorem extract_absent_iff_title_or_link_missing_witness :
    ∃ r, extract_post_data cardBasic = some r ∧
      r.title = getTextStrip (Node.elem "h2" [] [.text "  Big News  "]) :=
  (extract_absent_iff_title_or_link_missing cardBasic).2.2
    (.elem "h2" [] [.text "  Big News  "])
    (.elem "a" [("href", "/blog/big-news")] [.text "Read more"]) rfl rfl

/-- C1 counterexample: a fragment whose `h2` title element holds only
whitespace — so its title text is empty after trimming — is not
skipped: extraction returns a record with an empty title instead of
absent. -/
theorem extract_empty_title_not_skipped_counterexample :
    titleElem cardEmptyTitle = some (.elem "h2" [] [.text "  "]) ∧
    getTextStrip (Node.elem "h2" [] [.text "  "]) = "" ∧
    extract_post_data cardEmptyTitle =
      some { title := "", url := "https://www.cockroachlabs.com/x",
             date := none, image := none, excerpt := "", tags := ["databases"] } :=
  ⟨rfl, rfl, by decide⟩

/-- C4: for every record extracted from a fragment, a relative post or
image URL (a path starting with "/", e.g. "/img/x.png") is rewritten to
the absolute form obtained by prefixing the fixed site origin, and an
already-absolute URL (starting with "http") is left unchanged. -/
theorem extract_urls_absolutized :
    ∀ card r, extract_post_data card = some r →
      (∀ le href, linkElem card = some le → attrLookup le "href" = some href →
        (strStartsWith href "/" = true → r.url = SITE_ORIGIN ++ href) ∧
        (strStartsWith href "http" = true → r.url = href)) ∧
      (∀ ie src, findIn card (isNamed "img") = some ie → attrLookup ie "src" = some src →
        (strStartsWith src "/" = true → r.image = some (SITE_ORIGIN ++ src)) ∧
        (strStartsWith src "http" = true → r.image = some src)) := by
  intro card r hr
  cases ht : titleElem card with
  | none => simp [extract_post_data, ht] at hr
  | some te =>
  cases hl : linkElem card with
  | none => simp [extract_post_data, ht, hl] at hr
  | some le₀ =>
  rw [extract_fields_characterization card te le₀ ht hl] at hr
  replace hr := Option.some.inj hr
  subst hr
  constructor
  · intro le href hle hhref
    obtain rfl : le₀ = le := Option.some.inj hle
    constructor
    · intro hslash
      obtain ⟨hhttp, -⟩ := startsWith_slash_facts href hslash
      simp [BlogPost.make, hhref, resolveUrl, hhttp]
    · intro hhttp
      simp [BlogPost.make, hhref, resolveUrl, hhttp]
  · intro ie src hie hsrc
    constructor
    · intro hslash
      obtain ⟨hhttp, hne⟩ := startsWith_slash_facts src hslash
      simp [BlogPost.make, hie, hsrc, resolveImageUrl, hhttp, hne]
    · intro hhttp
      simp [BlogPost.make, hie, hsrc, resolveImageUrl, hhttp]

theorem extract_urls_absolutized_witness :
    (rRel.url = SITE_ORIGIN ++ "/blog/p" ∧
      rRel.image = some (SITE_ORIGIN ++ "/img/x.png")) ∧
    (rAbs.url = "https://example.com/p" ∧
      rAbs.image = some "https://cdn.example.com/i.png") := by
  have h1 := extract_urls_absolutized cardRel rRel (by decide)
  have h2 := extract_urls_absolutized cardAbs rAbs (by decide)
  exact ⟨⟨(h1.1 _ "/blog/p" rfl rfl).1 (by decide),
          (h1.2 _ "/img/x.png" rfl rfl).1 (by decide)⟩,
         ⟨(h2.1 _ "https://example.com/p" rfl rfl).2 (by decide),
          (h2.2 _ "https://cdn.example.com/i.png" rfl rfl).2 (by decide)⟩⟩

/-- C5: the excerpt of every constructed record is the empty string
when no excerpt element was found, and never exceeds 200 code points;
an excerpt text longer than 200 characters is truncated to exactly its
first 200 characters. -/
theorem excerpt_truncated_to_200 :
    ∀ card r, extract_post_data card = some r →
      r.excerpt.length ≤ 200 ∧
      (excerptElem card = none → r.excerpt = "") ∧
      (∀ ee, excerptElem card = some ee → 200 < (getTextStrip ee).length →
        r.excerpt = ⟨(getTextStrip ee).data.take 200⟩ ∧ r.excerpt.length = 200) := by
  intro card r hr
  cases ht : titleElem card with
  | none => simp [extract_post_data, ht] at hr
  | some te =>
  cases hl : linkElem card with
  | none => simp [extract_post_data, ht, hl] at hr
  | some le₀ =>
  rw [extract_fields_characterization card te le₀ ht hl] at hr
  replace hr := Option.some.inj hr
  subst hr
  refine ⟨?_, ?_, ?_⟩
  · cases he : excerptElem card with
    | none => simp [BlogPost.make, he]
    | some ee =>
      by_cases hne : getTextStrip ee = ""
      · simp [BlogPost.make, he, hne]
      · simp only [BlogPost.make, he, EXCERPT_MAX_LENGTH, ne_eq, hne,
          not_false_eq_true, if_true]
        show ((getTextStrip ee).data.take 200).length ≤ 200
        simp [List.length_take]
  · intro he
    simp [BlogPost.make, he]
  · intro ee he hlen
    have hne : getTextStrip ee ≠ "" := by
      intro h0
      rw [h0] at hlen
      simp [String.length] at hlen
    have hlen' : 200 < (getTextStrip ee).data.length := hlen
    constructor
    · simp [BlogPost.make, he, hne, EXCERPT_MAX_LENGTH]
    · simp only [BlogPost.make, he, EXCERPT_MAX_LENGTH, ne_eq, hne,
        not_false_eq_true, if_true]
      show ((getTextStrip ee).data.take 200).length = 200
      simp [List.length_take]
      omega

set_option maxRecDepth 100000 in
theorem excerpt_truncated_to_200_witness :
    (rLong.excerpt = ⟨(getTextStrip pLong).data.take 200⟩ ∧ rLong.excerpt.length = 200) ∧
    rNoExcerpt.excerpt = "" :=
  ⟨(excerpt_truncated_to_200 cardLong rLong (by decide)).2.2 pLong rfl (by decide),
   (excerpt_truncated_to_200 cardNoExcerpt rNoExcerpt (by decide)).2.1 rfl⟩

/-- C10 (amended): the absolute-versus-relative decision for post and
image URLs is made solely by testing whether the string starts with the
literal prefix "http" — a protocol-relative URL such as
"//cdn.example.com/x.png" is prefixed with the fixed origin and a
non-URL string such as "httpfoo" is left unchanged — except that an
empty image `src` string is kept unchanged rather than prefixed. -/
theorem url_decision_solely_startswith_http :
    (∀ u, resolveUrl u = if strStartsWith u "http" then u else SITE_ORIGIN ++ u) ∧
    (∀ u, u ≠ "" → resolveImageUrl u =
      if strStartsWith u "http" then u else SITE_ORIGIN ++ u) ∧
    resolveImageUrl "" = "" ∧
    resolveUrl "//cdn.example.com/x.png" = SITE_ORIGIN ++ "//cdn.example.com/x.png" ∧
    resolveUrl "httpfoo" = "httpfoo" ∧
    (∀ card r, extract_post_data card = some r →
      (∀ le, linkElem card = some le →
        r.url = resolveUrl ((attrLookup le "href").getD "")) ∧
      (∀ ie src, findIn card (isNamed "img") = some ie →
        attrLookup ie "src" = some src → r.image = some (resolveImageUrl src))) := by
  refine ⟨fun u => rfl, ?_, by decide, by decide, by decide, ?_⟩
  · intro u hu
    by_cases hh : strStartsWith u "http" = true
    · simp [resolveImageUrl, hh]
    · simp [resolveImageUrl, hu, hh]
  · intro card r hr
    cases ht : titleElem card with
    | none => simp [extract_post_data, ht] at hr
    | some te =>
    cases hl : linkElem card with
    | none => simp [extract_post_data, ht, hl] at hr
    | some le₀ =>
    rw [extract_fields_characterization card te le₀ ht hl] at hr
    replace hr := Option.some.inj hr
    subst hr
    constructor
    · intro le hle
      obtain rfl : le₀ = le := Option.some.inj hle
      simp [BlogPost.make]
    · intro ie src hie hsrc
      simp [BlogPost.make, hie, hsrc]

theorem url_decision_solely_startswith_http_witness :
    resolveImageUrl "//cdn.example.com/x.png" =
      (if strStartsWith "//cdn.example.com/x.png" "http" then "//cdn.example.com/x.png"
       else SITE_ORIGIN ++ "//cdn.example.com/x.png") ∧
    rProtoRel.url =
      resolveUrl ((attrLookup (Node.elem "a" [("href", "httpfoo")] [.text "x"]) "href").getD "") :=
  ⟨url_decision_solely_startswith_http.2.1 "//cdn.example.com/x.png" (by decide),
   (url_decision_solely_startswith_http.2.2.2.2.2 cardProtoRel rProtoRel (by decide)).1 _ rfl⟩

/-- C10 counterexample: an image URL that is the empty string does not
start with "http" and yet is not prefixed with the origin, so the
decision is not made solely by the `startswith` test. -/
theorem image_empty_src_kept_counterexample :
    extract_post_data cardEmptySrc = some rEmptySrc ∧
    rEmptySrc.image = some "" ∧
    strStartsWith "" "http" = false ∧
    ("" : String) ≠ SITE_ORIGIN ++ "" :=
  ⟨by decide, by decide, by decide, by decide⟩

theorem foldl_extract_filterMap (f : Node → Option BlogPost) :
    ∀ (l : List Node) (acc : List BlogPost),
      l.foldl (fun posts card =>
        match f card with
        | some p => posts ++ [p]
        | none => posts) acc = acc ++ l.filterMap f := by
  intro l
  induction l with
  | nil => intro acc; simp
  | cons n rest ih =>
    intro acc
    cases h : f n <;> simp [h, ih, List.filterMap_cons]

/-- C6: the Page Scraper selects candidates by the two-tier strategy —
all semantic `article` elements if any exist, otherwise all `div`
elements whose class matches the case-sensitive substring pattern
"post", "article" or "card" — and keeps exactly the non-absent results
of the Record Extractor over the candidates in document order,
preserving their relative order. -/
theorem scrape_two_tier_filterMap :
    ∀ doc : List Node,
      scrape_crl_author_page doc = (post_cards doc).filterMap extract_post_data ∧
      ((findAllInList (isNamed "article") doc).isEmpty = false →
        post_cards doc = findAllInList (isNamed "article") doc) ∧
      ((findAllInList (isNamed "article") doc).isEmpty = true →
        post_cards doc =
          findAllInList (fun n => isNamed "div" n &&
            classHasSub ["post", "article", "card"] n) doc) := by
  intro doc
  refine ⟨?_, ?_, ?_⟩
  · simpa [scrape_crl_author_page] using
      foldl_extract_filterMap extract_post_data (post_cards doc) []
  · intro h
    simp [post_cards, h]
  · intro h
    simp [post_cards, h]

theorem scrape_two_tier_filterMap_witness :
    post_cards docArticles = findAllInList (isNamed "article") docArticles ∧
    post_cards docDivs = findAllInList (fun n => isNamed "div" n &&
      classHasSub ["post", "article", "card"] n) docDivs :=
  ⟨(scrape_two_tier_filterMap docArticles).2.1 rfl,
   (scrape_two_tier_filterMap docDivs).2.2 rfl⟩
